import Mathlib

/-!
Verification of the `active_directory` Django app's directory-access layer
(`src/active_directory/models.py`).

Python strings are embedded as `List Char` (`PyStr`); `None`-able values as
`Option`; raised exceptions as `Except` errors or dedicated error branches.
Python's `str.split`, `str.join`, `str.strip` are reproduced over `PyStr`.
-/

abbrev PyStr := List Char

/-- Python `s.split(c)` for a single-character separator: splits on every
occurrence, keeping empty parts; `''.split(c) == ['']`. -/
def pySplit (c : Char) : PyStr → List PyStr
  | [] => [[]]
  | x :: xs =>
    match pySplit c xs with
    | [] => [[]]
    | p :: ps => if x = c then [] :: p :: ps else (x :: p) :: ps

/-- Python `sep.join(parts)`. -/
def pyJoin (sep : PyStr) : List PyStr → PyStr
  | [] => []
  | [x] => x
  | x :: y :: xs => x ++ sep ++ pyJoin sep (y :: xs)

/-- Python `s.strip(c)` for a one-character strip set: removes every copy of
`c` from both ends. -/
def pyStrip (c : Char) (s : PyStr) : PyStr :=
  (((s.dropWhile (fun x => x == c)).reverse).dropWhile (fun x => x == c)).reverse

/-- Python `s.strip()`: removes whitespace from both ends. -/
def pyStripWS (s : PyStr) : PyStr :=
  (((s.dropWhile Char.isWhitespace).reverse).dropWhile Char.isWhitespace).reverse

/-- Python truthiness of an optional string: `None` and `''` are falsy. -/
def pyTruthy : Option PyStr → Bool
  | none => false
  | some s => !s.isEmpty

namespace Settings

/-- `Settings.get_user_principal_name` (models.py:27-45): `None` maps to
`None`; a string containing `@` is returned unchanged; a string containing
`\` is split on every `\`, the parts reversed and joined with `@`; any
other string maps to `None`. -/
def get_user_principal_name : Option PyStr → Option PyStr
  | none => none
  | some username =>
    if username.contains '@' then some username
    else if username.contains '\\' then
      some (pyJoin ['@'] (pySplit '\\' username).reverse)
    else none

end Settings

/-- `resolvePrincipal` as the spec words it (spec.md §4.1): absent/empty
input yields absent; input containing `@` is returned unchanged; input
containing `\` is split on every `\`, the ordered parts reversed and joined
with `@`; any other input yields absent. -/
def resolvePrincipalSpec : Option PyStr → Option PyStr
  | none => none
  | some s =>
    if s.isEmpty then none
    else if s.contains '@' then some s
    else if s.contains '\\' then some (pyJoin ['@'] (pySplit '\\' s).reverse)
    else none

/-- C1: `get_user_principal_name` realises the spec's case analysis on every
input (absent/empty ↦ absent, `@` ↦ unchanged, `\` ↦ split/reverse/join,
otherwise absent), and on the spec's concrete examples `domain\user` gives
`user@domain` and `a\b\c` gives `c@b@a`; the Lean function is total, so no
exception is possible. -/
theorem C1_get_user_principal_name_cases :
    (∀ u : Option PyStr, Settings.get_user_principal_name u = resolvePrincipalSpec u)
    ∧ Settings.get_user_principal_name (some "domain\\user".data) = some "user@domain".data
    ∧ Settings.get_user_principal_name (some "a\\b\\c".data) = some "c@b@a".data
    ∧ Settings.get_user_principal_name (some "plainuser".data) = none
    ∧ Settings.get_user_principal_name (some "".data) = none
    ∧ Settings.get_user_principal_name none = none := by
  refine ⟨fun u => ?_, by decide, by decide, by decide, by decide, rfl⟩
  cases u with
  | none => rfl
  | some s =>
    cases s with
    | nil => rfl
    | cons a l =>
      simp only [Settings.get_user_principal_name, resolvePrincipalSpec, List.isEmpty_cons,
        if_neg Bool.false_ne_true]

/-- The return expression of `Settings.get_search_base` (models.py:66) applied
to an already-resolved principal: Python
`''.join([f'dc={u},' for u in username.split('@')[1].split('.')]).strip(',')`.
Indexing `[1]` is modelled with `[1]?` (`none` = `IndexError`). -/
def deriveSearchBase (username : PyStr) : Option PyStr :=
  ((pySplit '@' username)[1]?).map (fun dom =>
    pyStrip ',' (List.flatten ((pySplit '.' dom).map (fun u => "dc=".data ++ u ++ [',']))))

/-- `Settings.get_search_base` (models.py:60-66): resolves the stored username
to a principal and derives the DN; an unresolved (`None`) principal makes the
Python code raise `AttributeError` on `None.split`, modelled as `none`. -/
def Settings.get_search_base (username : Option PyStr) : Option PyStr :=
  match Settings.get_user_principal_name username with
  | none => none
  | some principal => deriveSearchBase principal

/-- The domain portion of a principal: the part after the first `@`
(element 1 of the `@`-split), defaulting to `[]`. -/
def domainPart (principal : PyStr) : PyStr :=
  ((pySplit '@' principal)[1]?).getD []

/-- The search base as the spec words it (spec.md §3, §4.1): the domain's
dot-separated labels each wrapped as `dc=<label>`, joined with commas in
label order, with no trailing comma. -/
def searchBaseOfDomainSpec (dom : PyStr) : PyStr :=
  pyJoin [','] ((pySplit '.' dom).map (fun l => "dc=".data ++ l))

theorem pySplit_ne_nil (c : Char) (s : PyStr) : pySplit c s ≠ [] := by
  induction s with
  | nil => simp [pySplit]
  | cons x xs _ =>
    simp only [pySplit]
    cases h : pySplit c xs with
    | nil => simp
    | cons p ps => by_cases hx : x = c <;> simp [hx]

theorem pySplit_not_mem (c : Char) : ∀ s : PyStr, c ∉ s → pySplit c s = [s]
  | [], _ => rfl
  | x :: xs, h => by
    have hx : ¬(x = c) := fun e => h (e ▸ List.mem_cons_self x xs)
    have ih := pySplit_not_mem c xs (fun m => h (List.mem_cons_of_mem x m))
    simp only [pySplit, ih, if_neg hx]

theorem pySplit_append (c : Char) (d : PyStr) :
    ∀ u : PyStr, c ∉ u → pySplit c (u ++ c :: d) = u :: pySplit c d
  | [], _ => by
    simp only [List.nil_append, pySplit]
    cases h : pySplit c d with
    | nil => exact absurd h (pySplit_ne_nil c d)
    | cons p ps => simp
  | x :: u', h => by
    have hx : ¬(x = c) := fun e => h (e ▸ List.mem_cons_self x u')
    have ih := pySplit_append c d u' (fun m => h (List.mem_cons_of_mem x m))
    simp only [List.cons_append, pySplit, List.append_eq, ih, if_neg hx]

theorem count_one_decomp (c : Char) :
    ∀ s : PyStr, s.count c = 1 → ∃ u d, s = u ++ c :: d ∧ c ∉ u ∧ c ∉ d
  | [], h => by simp at h
  | x :: xs, h => by
    by_cases hx : x = c
    · subst hx
      rw [List.count_cons_self] at h
      have h0 : xs.count x = 0 := by omega
      exact ⟨[], xs, rfl, by simp, List.count_eq_zero.mp h0⟩
    · rw [List.count_cons_of_ne (fun e => hx e.symm)] at h
      obtain ⟨u, d, rfl, hu, hd⟩ := count_one_decomp c xs h
      exact ⟨x :: u, d, rfl, by
        simp only [List.mem_cons]
        rintro (e | m)
        · exact hx e.symm
        · exact hu m, hd⟩

theorem pyJoin_cons (sep p : PyStr) (rest : List PyStr) (h : rest ≠ []) :
    pyJoin sep (p :: rest) = p ++ sep ++ pyJoin sep rest := by
  cases rest with
  | nil => exact absurd rfl h
  | cons q qs => rfl

theorem pyJoin_head (sep : PyStr) (a : Char) (p : PyStr) (rest : List PyStr) :
    (pyJoin sep ((a :: p) :: rest)).head? = some a := by
  cases rest with
  | nil => rfl
  | cons q qs => simp [pyJoin]

theorem pyJoin_getLast (sep : PyStr) (q : PyStr) (hq : q ≠ []) :
    ∀ parts : List PyStr, (pyJoin sep (parts ++ [q])).getLast? = q.getLast?
  | [] => rfl
  | p :: ps => by
    have ih := pyJoin_getLast sep q hq ps
    have hne : pyJoin sep (ps ++ [q]) ≠ [] := by
      intro h0
      rw [h0] at ih
      rw [List.getLast?_eq_getLast q hq] at ih
      cases ih
    rw [List.cons_append, pyJoin_cons sep p (ps ++ [q]) (by simp),
      List.append_assoc, List.getLast?_append_of_ne_nil _ (by
        intro h0
        rcases List.append_eq_nil.mp h0 with ⟨-, h2⟩
        exact hne h2), List.getLast?_append_of_ne_nil _ hne, ih]

theorem join_map_concat (c : Char) :
    ∀ parts : List PyStr, parts ≠ [] →
      List.flatten (parts.map (fun p => p ++ [c])) = pyJoin [c] parts ++ [c]
  | [], h => absurd rfl h
  | [p], _ => by simp [pyJoin]
  | p :: q :: ps, _ => by
    have ih := join_map_concat c (q :: ps) (by simp)
    simp only [List.map_cons, List.flatten_cons] at ih ⊢
    rw [ih, pyJoin_cons [c] p (q :: ps) (by simp)]
    simp [List.append_assoc]

theorem pyStrip_concat (c : Char) (X : PyStr) (a b : Char)
    (ha : X.head? = some a) (hA : a ≠ c) (hb : X.getLast? = some b) (hB : b ≠ c) :
    pyStrip c (X ++ [c]) = X := by
  obtain ⟨x, xs, rfl⟩ : ∃ x xs, X = x :: xs := by
    cases X with
    | nil => cases ha
    | cons x xs => exact ⟨x, xs, rfl⟩
  have hxc : ¬(x = c) := by
    have hxa : x = a := by simpa using ha
    exact hxa ▸ hA
  obtain ⟨t, ht⟩ : ∃ t, (x :: xs).reverse = b :: t := by
    have hh : (x :: xs).reverse.head? = some b := by
      rw [List.head?_reverse]; exact hb
    cases hrev : (x :: xs).reverse with
    | nil => rw [hrev] at hh; cases hh
    | cons y ys =>
      rw [hrev] at hh
      simp only [List.head?_cons, Option.some.injEq] at hh
      exact ⟨ys, by rw [hh]⟩
  have h1 : ((x :: xs) ++ [c]).dropWhile (fun z => z == c) = (x :: xs) ++ [c] := by
    simp [List.dropWhile_cons, hxc]
  have h2 : ((x :: xs) ++ [c]).reverse = c :: (x :: xs).reverse := by
    rw [List.reverse_append]; rfl
  have h3 : (c :: (x :: xs).reverse).dropWhile (fun z => z == c) =
      ((x :: xs).reverse).dropWhile (fun z => z == c) := by
    rw [List.dropWhile_cons]; simp
  have h4 : ((x :: xs).reverse).dropWhile (fun z => z == c) = (x :: xs).reverse := by
    rw [ht, List.dropWhile_cons]; simp [hB]
  show (((((x :: xs) ++ [c]).dropWhile (fun z => z == c)).reverse).dropWhile
      (fun z => z == c)).reverse = x :: xs
  rw [h1, h2, h3, h4, List.reverse_reverse]

/-- C2 (amended): for every principal containing exactly one `@` whose final
domain label does not end with a comma, `deriveSearchBase` wraps each
dot-separated label of the domain portion as `dc=<label>` in left-to-right
order and joins them with commas with no trailing comma. (The code strips
every leading and trailing comma from the joined string, so without the
extra hypothesis a final label ending in `,` loses that comma.) -/
theorem C2_search_base_amended (p : PyStr) (hcount : p.count '@' = 1)
    (hlast : ((pySplit '.' (domainPart p)).getLast?.getD []).getLast? ≠ some ',') :
    deriveSearchBase p = some (searchBaseOfDomainSpec (domainPart p)) := by
  obtain ⟨u, d, rfl, hu, hd⟩ := count_one_decomp '@' p hcount
  have hsplit : pySplit '@' (u ++ '@' :: d) = [u, d] := by
    rw [pySplit_append '@' d u hu, pySplit_not_mem '@' d hd]
  have hdom : domainPart (u ++ '@' :: d) = d := by
    simp [domainPart, hsplit]
  rw [hdom] at hlast ⊢
  simp only [deriveSearchBase, hsplit]
  have hidx : (([u, d] : List PyStr))[1]? = some d := rfl
  rw [hidx, Option.map_some']
  congr 1
  have hls : pySplit '.' d ≠ [] := pySplit_ne_nil '.' d
  have hmap : (pySplit '.' d).map (fun x => "dc=".data ++ x ++ [',']) =
      ((pySplit '.' d).map (fun l => "dc=".data ++ l)).map (fun q => q ++ [',']) := by
    rw [List.map_map]
    rfl
  rw [hmap, join_map_concat ',' _ (fun h0 => hls (List.map_eq_nil_iff.mp h0))]
  obtain ⟨l₀, tl, hcons⟩ : ∃ l₀ tl, pySplit '.' d = l₀ :: tl := by
    cases h : pySplit '.' d with
    | nil => exact absurd h hls
    | cons a as => exact ⟨a, as, rfl⟩
  have hhead : (pyJoin [','] ((pySplit '.' d).map (fun l => "dc=".data ++ l))).head?
      = some 'd' := by
    rw [hcons]
    exact pyJoin_head [','] 'd' ('c' :: '=' :: l₀) (tl.map (fun l => "dc=".data ++ l))
  have hll := List.getLast?_eq_getLast (pySplit '.' d) hls
  have hlast' : ((pySplit '.' d).getLast hls).getLast? ≠ some ',' := by
    rw [hll] at hlast
    simpa using hlast
  have hdecomp : (pySplit '.' d).dropLast ++ [(pySplit '.' d).getLast hls] =
      pySplit '.' d := List.dropLast_append_getLast hls
  obtain ⟨b, hb, hbne⟩ :
      ∃ b, ("dc=".data ++ (pySplit '.' d).getLast hls).getLast? = some b ∧ b ≠ ',' := by
    cases hllc : (pySplit '.' d).getLast hls with
    | nil => exact ⟨'=', by decide, by decide⟩
    | cons y ys =>
      have g1 : ("dc=".data ++ y :: ys).getLast? = (y :: ys).getLast? :=
        List.getLast?_append_of_ne_nil _ (by simp)
      have g2 : (y :: ys).getLast? ≠ some ',' := by
        rw [← hllc]; exact hlast'
      have g3 := List.getLast?_eq_getLast (y :: ys) (by simp)
      refine ⟨(y :: ys).getLast (by simp), by rw [g1, g3], fun e => ?_⟩
      exact g2 (by rw [g3, e])
  have hXlast : (pyJoin [','] ((pySplit '.' d).map (fun l => "dc=".data ++ l))).getLast?
      = some b := by
    conv_lhs => rw [← hdecomp]
    rw [List.map_append]
    rw [show ([(pySplit '.' d).getLast hls].map (fun l => "dc=".data ++ l))
      = ["dc=".data ++ (pySplit '.' d).getLast hls] from rfl]
    rw [pyJoin_getLast [','] _ (fun h0 => by
      have : ("dc=".data ++ (pySplit '.' d).getLast hls).getLast? = none := by
        rw [h0]; rfl
      rw [hb] at this
      cases this)]
    exact hb
  rw [pyStrip_concat ',' _ 'd' b hhead (by decide) hXlast hbne]
  rfl

/-- C2 counterexample: the principal `u@a,` contains exactly one `@`, the
code produces `dc=a` (the final label's trailing comma is stripped), while
the claim's wrap-and-join construction produces `dc=a,`. -/
theorem C2_trailing_comma_counterexample :
    ("u@a,".data.count '@' = 1)
    ∧ deriveSearchBase "u@a,".data = some "dc=a".data
    ∧ searchBaseOfDomainSpec (domainPart "u@a,".data) = "dc=a,".data
    ∧ deriveSearchBase "u@a,".data
      ≠ some (searchBaseOfDomainSpec (domainPart "u@a,".data)) := by
  refine ⟨by decide, by decide, by decide, by decide⟩

/-- C2 witness: `alice@corp.example.com` satisfies the amended hypotheses
and the derived search base is `dc=corp,dc=example,dc=com`. -/
theorem C2_search_base_witness :
    deriveSearchBase "alice@corp.example.com".data
      = some (searchBaseOfDomainSpec (domainPart "alice@corp.example.com".data))
    ∧ searchBaseOfDomainSpec (domainPart "alice@corp.example.com".data)
      = "dc=corp,dc=example,dc=com".data :=
  ⟨C2_search_base_amended "alice@corp.example.com".data (by decide) (by decide), by decide⟩

/-- The fields of the `Settings` Django model that the verified operations
read or write (models.py:6-13). `CharField(null=True)` fields are `Option`;
`domain` is `Option` as well because an unsaved instance may hold `None`. -/
structure SettingsState where
  username : Option PyStr
  password : Option PyStr
  domain : Option PyStr
  port : Nat
  ssl : Bool
deriving DecidableEq

/-- `Settings.save` (models.py:47-58): strips a truthy username and a truthy
domain, then clears both username and password when the (stripped) username
is falsy (`None` or empty); finally persists (persistence itself is outside
the model). -/
def Settings.save (s : SettingsState) : SettingsState :=
  let u := if pyTruthy s.username then s.username.map pyStripWS else s.username
  let d := if pyTruthy s.domain then s.domain.map pyStripWS else s.domain
  if pyTruthy u then { s with username := u, domain := d }
  else { s with username := none, password := none, domain := d }

/-- C7 counterexample: saving a state whose username is a valid principal but
whose password is absent keeps the username present and the password absent,
so after this save username/password are not both-present-or-both-absent. -/
theorem C7_invariant_counterexample :
    (Settings.save
        { username := some "alice@corp".data, password := none,
          domain := some "corp".data, port := 389, ssl := false }).username
      = some "alice@corp".data
    ∧ (Settings.save
        { username := some "alice@corp".data, password := none,
          domain := some "corp".data, port := 389, ssl := false }).password
      = none := by
  exact ⟨rfl, rfl⟩

/-- C7 (amended): `save` trims username and domain of whitespace before
storing; whenever the trimmed username is empty or absent, both the stored
username and the stored password become absent; hence after every save an
absent username implies an absent password. A present username with an
absent password, however, is stored unchanged, so only that one direction
of the both-present-or-both-absent invariant is established. -/
theorem C7_save_amended (s : SettingsState) :
    ((Settings.save s).username = none → (Settings.save s).password = none)
    ∧ (Settings.save s).domain = s.domain.map pyStripWS
    ∧ (s.username = none → (Settings.save s).username = none
        ∧ (Settings.save s).password = none)
    ∧ (∀ u, s.username = some u → pyStripWS u = [] →
        (Settings.save s).username = none ∧ (Settings.save s).password = none)
    ∧ (∀ u, s.username = some u → pyStripWS u ≠ [] →
        (Settings.save s).username = some (pyStripWS u)
          ∧ (Settings.save s).password = s.password) := by
  have hnorm : ∀ o : Option PyStr,
      (if pyTruthy o then o.map pyStripWS else o) = o.map pyStripWS := by
    intro o
    cases o with
    | none => rfl
    | some t =>
      cases t with
      | nil => rfl
      | cons a l => simp [pyTruthy]
  have hdom : (Settings.save s).domain = s.domain.map pyStripWS := by
    simp only [Settings.save, hnorm]
    split <;> rfl
  refine ⟨?_, hdom, ?_, ?_, ?_⟩
  · intro h
    cases hU : s.username with
    | none => simp [Settings.save, pyTruthy, hU]
    | some ustr =>
      cases hE : pyStripWS ustr with
      | nil =>
        cases ustr with
        | nil => simp [Settings.save, pyTruthy, hU]
        | cons a l => simp [Settings.save, pyTruthy, hU, hE]
      | cons b bs =>
        cases ustr with
        | nil => cases hE
        | cons a l =>
          exfalso
          rw [Settings.save] at h
          simp only [pyTruthy, hU, List.isEmpty_cons, Bool.not_false, if_true,
            Option.map_some', hE] at h
          simp at h
  · intro hU
    constructor <;> simp [Settings.save, pyTruthy, hU]
  · intro u hU hE
    cases u with
    | nil => constructor <;> simp [Settings.save, pyTruthy, hU]
    | cons a l => constructor <;> simp [Settings.save, pyTruthy, hU, hE]
  · intro u hU hNE
    obtain ⟨b, bs, hbs⟩ : ∃ b bs, pyStripWS u = b :: bs := by
      cases h : pyStripWS u with
      | nil => exact absurd h hNE
      | cons b bs => exact ⟨b, bs, rfl⟩
    cases u with
    | nil => cases hbs
    | cons a l => constructor <;> simp [Settings.save, pyTruthy, hU, hbs]

/-- C7 witness: a state with whitespace-padded username and domain and a
present password is stored trimmed with the password kept; a whitespace-only
username clears both username and password. -/
theorem C7_save_witness :
    ((Settings.save
        { username := some "  alice@corp  ".data, password := some "pw".data,
          domain := some " corp ".data, port := 389, ssl := false }).username
      = some "alice@corp".data
    ∧ (Settings.save
        { username := some "  alice@corp  ".data, password := some "pw".data,
          domain := some " corp ".data, port := 389, ssl := false }).password
      = some "pw".data)
    ∧ ((Settings.save
        { username := some "  ".data, password := some "pw".data,
          domain := some "corp".data, port := 389, ssl := false }).username = none
    ∧ (Settings.save
        { username := some "  ".data, password := some "pw".data,
          domain := some "corp".data, port := 389, ssl := false }).password = none) := by
  constructor
  · have h := (C7_save_amended
      { username := some "  alice@corp  ".data, password := some "pw".data,
        domain := some " corp ".data, port := 389, ssl := false }).2.2.2.2
      "  alice@corp  ".data rfl (by decide)
    exact ⟨by rw [h.1]; decide, h.2⟩
  · exact (C7_save_amended
      { username := some "  ".data, password := some "pw".data,
        domain := some "corp".data, port := 389, ssl := false }).2.2.2.1
      "  ".data rfl (by decide)

/-- The credential-defaulting step at the top of `Settings.get_connection`
(models.py:74-76): `if not login_username: login_username = self.username;
login_password = self.password`. Note that only the username's truthiness is
tested. -/
def Settings.effective_login (s : SettingsState)
    (login_username login_password : Option PyStr) : Option PyStr × Option PyStr :=
  if pyTruthy login_username then (login_username, login_password)
  else (s.username, s.password)

/-- The argument tuple handed to `ldap3.Connection` by `get_connection`
(models.py:78-83): server host/port/ssl from the settings, the principal
resolved from the effective username (possibly `None`), and the effective
password. -/
structure BindAttempt where
  host : Option PyStr
  port : Nat
  use_ssl : Bool
  user : Option PyStr
  password : Option PyStr
deriving DecidableEq

/-- `Settings.get_connection` (models.py:68-85): defaults the credentials,
builds the server descriptor and resolves the principal, then calls
`ldap3.Connection(server, username, login_password, auto_bind=True)`.
The repository code has no error path of its own before that call — it is
total up to the bind attempt it issues, which this model returns. -/
def Settings.get_connection (s : SettingsState)
    (login_username login_password : Option PyStr) : BindAttempt :=
  let eff := Settings.effective_login s login_username login_password
  { host := s.domain, port := s.port, use_ssl := s.ssl,
    user := Settings.get_user_principal_name eff.1, password := eff.2 }

/-- C9 counterexample: with stored credentials `(u0@corp, p0)`, calling
`get_connection` with an override username `a@b` but no override password
uses the pair `(a@b, None)` — neither the override pair ('both given' is
false) nor the stored pair required by the claim. -/
theorem C9_override_pair_counterexample :
    Settings.effective_login
        { username := some "u0@corp".data, password := some "p0".data,
          domain := some "corp".data, port := 389, ssl := false }
        (some "a@b".data) none
      = (some "a@b".data, none)
    ∧ Settings.effective_login
        { username := some "u0@corp".data, password := some "p0".data,
          domain := some "corp".data, port := 389, ssl := false }
        (some "a@b".data) none
      ≠ (some "u0@corp".data, some "p0".data)
    ∧ (Settings.get_connection
        { username := some "u0@corp".data, password := some "p0".data,
          domain := some "corp".data, port := 389, ssl := false }
        (some "a@b".data) none).password = none := by
  refine ⟨rfl, by decide, rfl⟩

/-- C9 (amended): the effective credentials are the override
username/password pair whenever the override username is given and non-empty
— even if the override password is absent — and the stored pair otherwise;
the bind attempt uses the principal resolved from the effective username and
the effective password, so no mixed pairing of override username with stored
password (or vice versa) ever occurs. -/
theorem C9_effective_credentials_amended (s : SettingsState)
    (login_username login_password : Option PyStr) :
    (Settings.effective_login s login_username login_password
        = (login_username, login_password)
      ∨ Settings.effective_login s login_username login_password
        = (s.username, s.password))
    ∧ (pyTruthy login_username = true →
        Settings.effective_login s login_username login_password
          = (login_username, login_password))
    ∧ (pyTruthy login_username = false →
        Settings.effective_login s login_username login_password
          = (s.username, s.password))
    ∧ (Settings.get_connection s login_username login_password).user
      = Settings.get_user_principal_name
          (Settings.effective_login s login_username login_password).1
    ∧ (Settings.get_connection s login_username login_password).password
      = (Settings.effective_login s login_username login_password).2 := by
  refine ⟨?_, ?_, ?_, rfl, rfl⟩
  · by_cases h : pyTruthy login_username
    · exact Or.inl (by simp [Settings.effective_login, h])
    · exact Or.inr (by simp [Settings.effective_login, h])
  · intro h
    simp [Settings.effective_login, h]
  · intro h
    simp [Settings.effective_login, h]

/-- C9 witness: with both overrides given the override pair is used; with a
falsy override username the stored pair is used. -/
theorem C9_effective_credentials_witness :
    Settings.effective_login
        { username := some "u0@corp".data, password := some "p0".data,
          domain := some "corp".data, port := 389, ssl := false }
        (some "a@b".data) (some "pw".data)
      = (some "a@b".data, some "pw".data)
    ∧ Settings.effective_login
        { username := some "u0@corp".data, password := some "p0".data,
          domain := some "corp".data, port := 389, ssl := false }
        none (some "pw".data)
      = (some "u0@corp".data, some "p0".data) :=
  ⟨(C9_effective_credentials_amended
      { username := some "u0@corp".data, password := some "p0".data,
        domain := some "corp".data, port := 389, ssl := false }
      (some "a@b".data) (some "pw".data)).2.1 (by decide),
   (C9_effective_credentials_amended
      { username := some "u0@corp".data, password := some "p0".data,
        domain := some "corp".data, port := 389, ssl := false }
      none (some "pw".data)).2.2.1 (by decide)⟩

/-- C5: when the effective login cannot be resolved to a principal,
`get_connection` raises nothing itself; it proceeds to call
`ldap3.Connection` with `user=None` — in ldap3 a bind request with no user
is an anonymous bind — instead of failing with an `AuthenticationError`.
Shown in general and evaluated at a settings row with no stored credentials. -/
theorem C5_unresolved_principal_bind_attempt :
    (∀ (s : SettingsState) (login_username login_password : Option PyStr),
      Settings.get_user_principal_name
          (Settings.effective_login s login_username login_password).1 = none →
        Settings.get_connection s login_username login_password
          = { host := s.domain, port := s.port, use_ssl := s.ssl,
              user := none,
              password := (Settings.effective_login s login_username login_password).2 })
    ∧ Settings.get_connection
        { username := none, password := none,
          domain := some "corp.example.com".data, port := 389, ssl := false }
        none none
      = { host := some "corp.example.com".data, port := 389, use_ssl := false,
          user := none, password := none } := by
  constructor
  · intro s lu lp h
    simp only [Settings.get_connection, h]
  · rfl

/-- The shapes a Python caller can pass as the `users` argument of
`get_users_info_ad`: `None`, a scalar string, a scalar integer, a list of
strings, or a tuple of strings. -/
inductive UsersArg where
  | noneArg : UsersArg
  | str : PyStr → UsersArg
  | int : Int → UsersArg
  | list : List PyStr → UsersArg
  | tuple : List PyStr → UsersArg
deriving DecidableEq

/-- Python truthiness of a `users` argument (`if not users:`). -/
def UsersArg.truthy : UsersArg → Bool
  | .noneArg => false
  | .str s => !s.isEmpty
  | .int n => n != 0
  | .list xs => !xs.isEmpty
  | .tuple xs => !xs.isEmpty

/-- Python `isinstance(users, (list, tuple))`. -/
def UsersArg.isListOrTuple : UsersArg → Bool
  | .list _ => true
  | .tuple _ => true
  | _ => false

/-- The elements of a list/tuple argument. -/
def UsersArg.elems : UsersArg → List PyStr
  | .list xs => xs
  | .tuple xs => xs
  | _ => []

/-- The exceptions the modelled code can raise. -/
inductive PyError where
  | ldapException : String → PyError
  | attributeError : PyError
  | socketOpenError : PyError
  | bindError : PyError
  | searchAborted : PyError
deriving DecidableEq

/-- The filter-construction stage of `get_users_info_ad` (models.py:89-96):
a falsy `users` gives the base filter; a truthy non-list/tuple raises
`LDAPException`; otherwise each element is `str()`-ed, stripped and wrapped
as `(sAMAccountName=<id>)`, the wrapped terms concatenated in order and
AND-combined with the base filter inside an OR group. -/
def Settings.build_search_filter (users : UsersArg) : Except PyError PyStr :=
  if !users.truthy then .ok "(objectClass=person)".data
  else if !users.isListOrTuple then
    .error (.ldapException "Users must be list/tuple of users or None")
  else .ok ("(&(objectClass=person)(|".data
    ++ List.flatten (users.elems.map
        (fun user => "(sAMAccountName=".data ++ pyStripWS user ++ ")".data))
    ++ "))".data)

/-- The search filter as the spec words it (spec.md §4.3): each identifier
trimmed and wrapped as `sAMAccountName=<id>`, the wrapped terms OR-combined,
and the OR group AND-combined with the base filter `objectClass=person`. -/
def searchFilterSpec (identifiers : List PyStr) : PyStr :=
  "(&".data ++ "(objectClass=person)".data
    ++ ("(|".data
      ++ List.flatten (identifiers.map
          (fun i => "(".data ++ "sAMAccountName=".data ++ pyStripWS i ++ ")".data))
      ++ ")".data)
    ++ ")".data

/-- One entry of the stream produced by `paged_search`; only the `type`
discriminator (`entry.get('type')`, `None` when the key is missing) matters
to the verified properties. -/
structure Entry where
  type : Option PyStr
deriving DecidableEq

/-- The loop body of `get_users_info_ad` (models.py:105-115): append every
entry whose `type` is not `'searchResRef'`, in stream order. -/
def collectEntries : List Entry → List Entry
  | [] => []
  | e :: es =>
    if e.type ≠ some "searchResRef".data then e :: collectEntries es
    else collectEntries es

/-- Behaviour of the directory server for one call: whether the
`ldap3.Connection(..., auto_bind=True)` constructor raises a socket error,
raises a bind error, or returns a bound connection; and, when bound, the
stream of entries `paged_search` yields and whether the stream raises after
yielding them. -/
inductive ConnectOutcome where
  | socketError : ConnectOutcome
  | bindError : ConnectOutcome
  | bound : ConnectOutcome
deriving DecidableEq

structure DirEnv where
  connect : ConnectOutcome
  entries : List Entry
  search_raises : Bool
deriving DecidableEq

/-- The subtree search request issued through `paged_search`
(models.py:105-112). -/
structure SearchRequest where
  search_base : PyStr
  search_filter : PyStr
  paged_size : Nat
deriving DecidableEq

/-- Observable trace of one `get_users_info_ad` call: its result (returned
entries or raised exception), how many connections were successfully opened,
how many were unbound, the bind attempts issued, and the search requests
issued. -/
structure ExecTrace where
  result : Except PyError (List Entry)
  opens : Nat
  unbinds : Nat
  binds : List BindAttempt
  searches : List SearchRequest

/-- `Settings.get_users_info_ad` (models.py:87-122), step for step: build the
search filter (possibly raising `LDAPException`), compute the search base
from the stored username (raising `AttributeError` when the stored username
resolves to no principal), open the connection (the env decides the outcome
of `auto_bind`), run the paged search collecting non-referral entries, and
unbind — but only when the iteration finishes without raising; the source has
no try/finally, so a raising stream exits before `connection.unbind()`. -/
def Settings.get_users_info_ad (s : SettingsState) (env : DirEnv)
    (login_username login_password : Option PyStr) (users : UsersArg) : ExecTrace :=
  match Settings.build_search_filter users with
  | .error e => { result := .error e, opens := 0, unbinds := 0, binds := [], searches := [] }
  | .ok search_filter =>
    match Settings.get_search_base s.username with
    | none =>
      { result := .error .attributeError, opens := 0, unbinds := 0,
        binds := [], searches := [] }
    | some search_base =>
      let attempt := Settings.get_connection s login_username login_password
      match env.connect with
      | .socketError =>
        { result := .error .socketOpenError, opens := 0, unbinds := 0,
          binds := [attempt], searches := [] }
      | .bindError =>
        { result := .error .bindError, opens := 0, unbinds := 0,
          binds := [attempt], searches := [] }
      | .bound =>
        let req : SearchRequest :=
          { search_base := search_base, search_filter := search_filter, paged_size := 500 }
        if env.search_raises then
          { result := .error .searchAborted, opens := 1, unbinds := 0,
            binds := [attempt], searches := [req] }
        else
          { result := .ok (collectEntries env.entries), opens := 1, unbinds := 1,
            binds := [attempt], searches := [req] }

/-- C3: for a non-empty list (or tuple) of identifiers the constructed filter
is exactly the spec's AND of the base filter with the OR group of trimmed,
wrapped identifiers in list order; for an absent or empty identifiers
argument it is exactly `(objectClass=person)`. -/
theorem C3_search_filter :
    (∀ xs : List PyStr, xs ≠ [] →
      Settings.build_search_filter (.list xs) = .ok (searchFilterSpec xs)
      ∧ Settings.build_search_filter (.tuple xs) = .ok (searchFilterSpec xs))
    ∧ Settings.build_search_filter .noneArg = .ok "(objectClass=person)".data
    ∧ Settings.build_search_filter (.list []) = .ok "(objectClass=person)".data
    ∧ Settings.build_search_filter (.tuple []) = .ok "(objectClass=person)".data := by
  refine ⟨fun xs hxs => ?_, rfl, rfl, rfl⟩
  obtain ⟨x, xs', rfl⟩ : ∃ x xs', xs = x :: xs' := by
    cases xs with
    | nil => exact absurd rfl hxs
    | cons a as => exact ⟨a, as, rfl⟩
  constructor <;>
  · simp only [Settings.build_search_filter, searchFilterSpec, List.append_assoc]
    rfl

/-- C3 witness: identifiers `bob`, `carol` give the spec's example filter. -/
theorem C3_search_filter_witness :
    (["bob".data, "carol".data] : List PyStr) ≠ []
    ∧ Settings.build_search_filter (.list ["bob".data, "carol".data])
      = .ok (searchFilterSpec ["bob".data, "carol".data])
    ∧ searchFilterSpec ["bob".data, "carol".data]
      = "(&(objectClass=person)(|(sAMAccountName=bob)(sAMAccountName=carol)))".data :=
  ⟨by decide, (C3_search_filter.1 ["bob".data, "carol".data] (by decide)).1, by decide⟩

/-- C6 counterexample: `users=''` is present and is not a list/tuple, yet the
call does not fail with `InvalidArgument`: `if not users` catches the falsy
empty string first, so the call proceeds with the base filter and attempts a
connection (here one successful open). -/
theorem C6_empty_string_counterexample :
    (Settings.get_users_info_ad
        { username := some "admin@corp.example.com".data, password := some "pw".data,
          domain := some "corp.example.com".data, port := 389, ssl := false }
        { connect := .bound, entries := [], search_raises := false }
        none none (.str "".data)).result = .ok []
    ∧ (Settings.get_users_info_ad
        { username := some "admin@corp.example.com".data, password := some "pw".data,
          domain := some "corp.example.com".data, port := 389, ssl := false }
        { connect := .bound, entries := [], search_raises := false }
        none none (.str "".data)).opens = 1
    ∧ (Settings.get_users_info_ad
        { username := some "admin@corp.example.com".data, password := some "pw".data,
          domain := some "corp.example.com".data, port := 389, ssl := false }
        { connect := .bound, entries := [], search_raises := false }
        none none (.str "".data)).binds.length = 1 :=
  ⟨rfl, rfl, rfl⟩

/-- C6 (amended): for every call where `users` is truthy and not a
list/tuple (e.g. a non-empty scalar string), the call fails with the
`LDAPException('Users must be list/tuple of users or None')` before any
connection attempt, bind, open, unbind or search; a falsy scalar such as the
empty string is instead treated as absent and no error is raised. -/
theorem C6_invalid_users_amended (s : SettingsState) (env : DirEnv)
    (login_username login_password : Option PyStr) (users : UsersArg)
    (ht : users.truthy = true) (hl : users.isListOrTuple = false) :
    (Settings.get_users_info_ad s env login_username login_password users).result
      = .error (.ldapException "Users must be list/tuple of users or None")
    ∧ (Settings.get_users_info_ad s env login_username login_password users).opens = 0
    ∧ (Settings.get_users_info_ad s env login_username login_password users).unbinds = 0
    ∧ (Settings.get_users_info_ad s env login_username login_password users).binds = []
    ∧ (Settings.get_users_info_ad s env login_username login_password users).searches
      = [] := by
  have hf : Settings.build_search_filter users
      = .error (.ldapException "Users must be list/tuple of users or None") := by
    simp [Settings.build_search_filter, ht, hl]
  simp [Settings.get_users_info_ad, hf]

/-- C6 witness: the scalar string `bob` triggers the error with no
connection-related effect. -/
theorem C6_invalid_users_witness :
    (Settings.get_users_info_ad
        { username := some "admin@corp.example.com".data, password := some "pw".data,
          domain := some "corp.example.com".data, port := 389, ssl := false }
        { connect := .bound, entries := [], search_raises := false }
        none none (.str "bob".data)).result
      = .error (.ldapException "Users must be list/tuple of users or None")
    ∧ (Settings.get_users_info_ad
        { username := some "admin@corp.example.com".data, password := some "pw".data,
          domain := some "corp.example.com".data, port := 389, ssl := false }
        { connect := .bound, entries := [], search_raises := false }
        none none (.str "bob".data)).opens = 0
    ∧ (Settings.get_users_info_ad
        { username := some "admin@corp.example.com".data, password := some "pw".data,
          domain := some "corp.example.com".data, port := 389, ssl := false }
        { connect := .bound, entries := [], search_raises := false }
        none none (.str "bob".data)).unbinds = 0
    ∧ (Settings.get_users_info_ad
        { username := some "admin@corp.example.com".data, password := some "pw".data,
          domain := some "corp.example.com".data, port := 389, ssl := false }
        { connect := .bound, entries := [], search_raises := false }
        none none (.str "bob".data)).binds = []
    ∧ (Settings.get_users_info_ad
        { username := some "admin@corp.example.com".data, password := some "pw".data,
          domain := some "corp.example.com".data, port := 389, ssl := false }
        { connect := .bound, entries := [], search_raises := false }
        none none (.str "bob".data)).searches = [] :=
  C6_invalid_users_amended
    { username := some "admin@corp.example.com".data, password := some "pw".data,
      domain := some "corp.example.com".data, port := 389, ssl := false }
    { connect := .bound, entries := [], search_raises := false }
    none none (.str "bob".data) (by decide) (by decide)

theorem collectEntries_sublist : ∀ es : List Entry, List.Sublist (collectEntries es) es
  | [] => List.Sublist.refl []
  | e :: es => by
    rw [collectEntries]
    by_cases h : e.type ≠ some "searchResRef".data
    · rw [if_pos h]
      exact (collectEntries_sublist es).cons₂ e
    · rw [if_neg h]
      exact (collectEntries_sublist es).cons e

theorem collectEntries_no_referral (es : List Entry) :
    ∀ e ∈ collectEntries es, e.type ≠ some "searchResRef".data := by
  induction es with
  | nil =>
    intro e he
    simp [collectEntries] at he
  | cons x xs ih =>
    intro e he
    rw [collectEntries] at he
    by_cases hx : x.type ≠ some "searchResRef".data
    · rw [if_pos hx] at he
      rcases List.mem_cons.mp he with rfl | hm
      · exact hx
      · exact ih e hm
    · rw [if_neg hx] at he
      exact ih e he

theorem collectEntries_complete (es : List Entry) :
    ∀ e ∈ es, e.type ≠ some "searchResRef".data → e ∈ collectEntries es := by
  induction es with
  | nil =>
    intro e he
    cases he
  | cons x xs ih =>
    intro e he hne
    rw [collectEntries]
    rcases List.mem_cons.mp he with rfl | hm
    · rw [if_pos hne]
      exact List.mem_cons_self _ _
    · by_cases hx : x.type ≠ some "searchResRef".data
      · rw [if_pos hx]
        exact List.mem_cons_of_mem _ (ih e hm hne)
      · rw [if_neg hx]
        exact ih e hm hne

/-- C4: the code violates the close-on-every-exit-path requirement. Whenever
the filter and search base are computed, the connection binds successfully
(one successful open) and the paged-search iteration then raises, the call
exits with the exception without ever calling `connection.unbind()` — the
source has no try/finally around the loop — so the opened connection leaks:
one open, zero closes. -/
theorem C4_connection_leak_on_search_failure (s : SettingsState) (env : DirEnv)
    (login_username login_password : Option PyStr) (users : UsersArg)
    (f b : PyStr)
    (hf : Settings.build_search_filter users = .ok f)
    (hb : Settings.get_search_base s.username = some b)
    (hc : env.connect = .bound)
    (hr : env.search_raises = true) :
    (Settings.get_users_info_ad s env login_username login_password users).opens = 1
    ∧ (Settings.get_users_info_ad s env login_username login_password users).unbinds = 0
    ∧ (Settings.get_users_info_ad s env login_username login_password users).result
      = .error .searchAborted := by
  simp [Settings.get_users_info_ad, hf, hb, hc, hr]

/-- C4 witness: a concrete call in which the bound connection is opened once
and never unbound because the search stream raises. -/
theorem C4_connection_leak_witness :
    (Settings.get_users_info_ad
        { username := some "admin@corp.example.com".data, password := some "pw".data,
          domain := some "corp.example.com".data, port := 389, ssl := false }
        { connect := .bound, entries := [{ type := some "searchResEntry".data }],
          search_raises := true }
        none none .noneArg).opens = 1
    ∧ (Settings.get_users_info_ad
        { username := some "admin@corp.example.com".data, password := some "pw".data,
          domain := some "corp.example.com".data, port := 389, ssl := false }
        { connect := .bound, entries := [{ type := some "searchResEntry".data }],
          search_raises := true }
        none none .noneArg).unbinds = 0
    ∧ (Settings.get_users_info_ad
        { username := some "admin@corp.example.com".data, password := some "pw".data,
          domain := some "corp.example.com".data, port := 389, ssl := false }
        { connect := .bound, entries := [{ type := some "searchResEntry".data }],
          search_raises := true }
        none none .noneArg).result = .error .searchAborted :=
  C4_connection_leak_on_search_failure
    { username := some "admin@corp.example.com".data, password := some "pw".data,
      domain := some "corp.example.com".data, port := 389, ssl := false }
    { connect := .bound, entries := [{ type := some "searchResEntry".data }],
      search_raises := true }
    none none .noneArg
    "(objectClass=person)".data "dc=corp,dc=example,dc=com".data
    rfl (by decide) rfl rfl

/-- C8: on every completed search the call returns exactly the entries of
the stream whose type discriminator is not `searchResRef`, in stream order
(the result is a sublist of the stream), with no referral-type entry in the
result and no non-referral entry dropped. -/
theorem C8_referral_filtering (s : SettingsState) (env : DirEnv)
    (login_username login_password : Option PyStr) (users : UsersArg)
    (f b : PyStr)
    (hf : Settings.build_search_filter users = .ok f)
    (hb : Settings.get_search_base s.username = some b)
    (hc : env.connect = .bound)
    (hr : env.search_raises = false) :
    (Settings.get_users_info_ad s env login_username login_password users).result
      = .ok (collectEntries env.entries)
    ∧ List.Sublist (collectEntries env.entries) env.entries
    ∧ (∀ e ∈ collectEntries env.entries, e.type ≠ some "searchResRef".data)
    ∧ (∀ e ∈ env.entries, e.type ≠ some "searchResRef".data →
        e ∈ collectEntries env.entries) := by
  refine ⟨?_, collectEntries_sublist env.entries,
    collectEntries_no_referral env.entries, collectEntries_complete env.entries⟩
  simp [Settings.get_users_info_ad, hf, hb, hc, hr]

/-- C8 witness: a stream with one referral among two matches yields exactly
the two matches in order. -/
theorem C8_referral_filtering_witness :
    (Settings.get_users_info_ad
        { username := some "admin@corp.example.com".data, password := some "pw".data,
          domain := some "corp.example.com".data, port := 389, ssl := false }
        { connect := .bound,
          entries := [{ type := some "searchResEntry".data },
            { type := some "searchResRef".data }, { type := none }],
          search_raises := false }
        none none .noneArg).result
      = .ok (collectEntries [{ type := some "searchResEntry".data },
          { type := some "searchResRef".data }, { type := none }])
    ∧ collectEntries [{ type := some "searchResEntry".data },
          { type := some "searchResRef".data }, { type := none }]
      = [{ type := some "searchResEntry".data }, { type := none }] :=
  ⟨(C8_referral_filtering
      { username := some "admin@corp.example.com".data, password := some "pw".data,
        domain := some "corp.example.com".data, port := 389, ssl := false }
      { connect := .bound,
        entries := [{ type := some "searchResEntry".data },
          { type := some "searchResRef".data }, { type := none }],
        search_raises := false }
      none none .noneArg
      "(objectClass=person)".data "dc=corp,dc=example,dc=com".data
      rfl (by decide) rfl rfl).1, by decide⟩

/-- C10: the search base of every search request issued by
`get_users_info_ad` comes from `get_search_base` applied to the *stored*
settings username, never from the override login credentials; consequently,
whenever the stored username is absent or contains neither `@` nor `\`, the
call fails (the filter error or the `AttributeError` from
`get_search_base`) before any bind attempt, open or search — even when
override credentials are supplied. -/
theorem C10_search_base_from_stored_username (s : SettingsState) (env : DirEnv)
    (login_username login_password : Option PyStr) (users : UsersArg) :
    (∀ req ∈ (Settings.get_users_info_ad s env login_username login_password
        users).searches, Settings.get_search_base s.username = some req.search_base)
    ∧ ((s.username = none ∨ ∃ ustr, s.username = some ustr
          ∧ ustr.contains '@' = false ∧ ustr.contains '\\' = false) →
        (Settings.get_users_info_ad s env login_username login_password
            users).searches = []
        ∧ (Settings.get_users_info_ad s env login_username login_password
            users).opens = 0
        ∧ (Settings.get_users_info_ad s env login_username login_password
            users).binds = []
        ∧ ∃ err, (Settings.get_users_info_ad s env login_username login_password
            users).result = .error err) := by
  constructor
  · intro req hreq
    cases hf : Settings.build_search_filter users with
    | error e => simp [Settings.get_users_info_ad, hf] at hreq
    | ok f =>
      cases hbase : Settings.get_search_base s.username with
      | none => simp [Settings.get_users_info_ad, hf, hbase] at hreq
      | some b =>
        cases hc : env.connect with
        | socketError => simp [Settings.get_users_info_ad, hf, hbase, hc] at hreq
        | bindError => simp [Settings.get_users_info_ad, hf, hbase, hc] at hreq
        | bound =>
          cases hr : env.search_raises with
          | false =>
            simp only [Settings.get_users_info_ad, hf, hbase, hc, hr,
              Bool.false_eq_true, if_false, List.mem_singleton] at hreq
            rw [hreq]
          | true =>
            simp only [Settings.get_users_info_ad, hf, hbase, hc, hr,
              if_true, List.mem_singleton] at hreq
            rw [hreq]
  · intro h
    have hprin : Settings.get_user_principal_name s.username = none := by
      rcases h with hn | ⟨ustr, hs, h1, h2⟩
      · rw [hn]; rfl
      · have h1' : '@' ∉ ustr := by simpa using h1
        have h2' : '\\' ∉ ustr := by simpa using h2
        rw [hs]
        simp [Settings.get_user_principal_name, h1', h2']
    have hbase : Settings.get_search_base s.username = none := by
      simp [Settings.get_search_base, hprin]
    cases hf : Settings.build_search_filter users with
    | error e =>
      refine ⟨?_, ?_, ?_, e, ?_⟩ <;> simp [Settings.get_users_info_ad, hf]
    | ok f =>
      refine ⟨?_, ?_, ?_, .attributeError, ?_⟩ <;>
        simp [Settings.get_users_info_ad, hf, hbase]

/-- C10 witness: a stored username `plainuser` (no separator) makes the call
fail before any bind or search, although a valid override principal and
password are supplied and the server would accept the bind. -/
theorem C10_search_base_witness :
    (Settings.get_users_info_ad
        { username := some "plainuser".data, password := none,
          domain := some "corp.example.com".data, port := 389, ssl := false }
        { connect := .bound, entries := [{ type := none }], search_raises := false }
        (some "admin@corp.example.com".data) (some "pw".data) .noneArg).searches = []
    ∧ (Settings.get_users_info_ad
        { username := some "plainuser".data, password := none,
          domain := some "corp.example.com".data, port := 389, ssl := false }
        { connect := .bound, entries := [{ type := none }], search_raises := false }
        (some "admin@corp.example.com".data) (some "pw".data) .noneArg).opens = 0
    ∧ (Settings.get_users_info_ad
        { username := some "plainuser".data, password := none,
          domain := some "corp.example.com".data, port := 389, ssl := false }
        { connect := .bound, entries := [{ type := none }], search_raises := false }
        (some "admin@corp.example.com".data) (some "pw".data) .noneArg).binds = []
    ∧ ∃ err, (Settings.get_users_info_ad
        { username := some "plainuser".data, password := none,
          domain := some "corp.example.com".data, port := 389, ssl := false }
        { connect := .bound, entries := [{ type := none }], search_raises := false }
        (some "admin@corp.example.com".data) (some "pw".data) .noneArg).result
      = .error err :=
  (C10_search_base_from_stored_username
    { username := some "plainuser".data, password := none,
      domain := some "corp.example.com".data, port := 389, ssl := false }
    { connect := .bound, entries := [{ type := none }], search_raises := false }
    (some "admin@corp.example.com".data) (some "pw".data) .noneArg).2
    (Or.inr ⟨"plainuser".data, rfl, by decide, by decide⟩)

/-- C5 witness: stored username `plainuser` (no separator, unresolvable) and
no overrides — the call still issues a bind attempt, with `user=None` and
the stored password, raising no error of its own. -/
theorem C5_unresolved_principal_bind_witness :
    Settings.get_connection
        { username := some "plainuser".data, password := some "pw".data,
          domain := some "corp.example.com".data, port := 389, ssl := false }
        none none
      = { host := some "corp.example.com".data, port := 389, use_ssl := false,
          user := none, password := some "pw".data } :=
  C5_unresolved_principal_bind_attempt.1
    { username := some "plainuser".data, password := some "pw".data,
      domain := some "corp.example.com".data, port := 389, ssl := false }
    none none (by decide)
